import Mathlib

/-!
Shallow embedding of `src/rust/cubesqlplanner/cubesqlplanner/src/planner/filter/base_filter.rs`,
the filter-expression compiler of the cube repository, together with theorems
settling the specification claims about it.

Modelling conventions:
* `CubeError` is the error type; all errors in this file are `CubeError.user`
  carrying the exact message the Rust code formats.
* Externally-owned collaborators (`QueryTools`/`BaseTools` and the dialect
  `FilterTemplates`) are modelled as records of functions (`Tools`,
  `Templates`) passed explicitly to the compiling functions; the Rust struct
  stores `Rc` references to them, which we record as opaque `Nat` ids on the
  `BaseFilter` value so that reference sharing is observable.
* The parameter allocator is modelled as a pure function `String → String`;
  the allocator state is not observed by any claim.
* The three anchored regexes of the Rust file are fixed-shape character
  patterns and are embedded as decidable shape matchers over `List Char`.
* Rust `Result<T, CubeError>` becomes `Except CubeError T`; `?` becomes
  monadic bind in `do` notation.
-/

/-- Error type standing for `cubenativeutils::CubeError`; only the
`CubeError::user` constructor is exercised by this file. -/
inductive CubeError where
  | user (msg : String)
deriving DecidableEq, Repr

/-- `FilterType` from base_filter.rs (the spec calls it FilterKind). -/
inductive FilterType where
  | Dimension
  | Measure
deriving DecidableEq, Repr

/-- `FilterOperator`: the closed operator enumeration, exactly the variants
matched exhaustively in `BaseFilter::to_sql`. -/
inductive FilterOperator where
  | Equal
  | NotEqual
  | InDateRange
  | InDateRangeExtended
  | In
  | NotIn
  | Set
  | NotSet
  | Gt
  | Gte
  | Lt
  | Lte
  | Contains
  | NotContains
  | StartsWith
  | NotStartsWith
  | EndsWith
  | NotEndsWith
deriving DecidableEq, Repr

/-- The `BaseFilter` struct. `query_tools`, `member_evaluator` and
`templates` are `Rc` references in Rust; here they are opaque reference
identities so that sharing (claims C7/C8) is expressible. -/
structure BaseFilter where
  query_tools : Nat
  member_evaluator : Nat
  filter_type : FilterType
  filter_operator : FilterOperator
  values : List (Option String)
  templates : Nat
deriving DecidableEq, Repr

/-- The externally-owned tools interface (`QueryTools`/`BaseTools`):
parameter allocation, timezone conversion and the configured
fractional-second precision. -/
structure Tools where
  allocate_param : String → String
  in_db_time_zone : String → Except CubeError String
  timestamp_precision : Except CubeError Nat

/-- The dialect template set (`FilterTemplates`); every renderer may fail
with a templating error, mirroring the Rust signatures. -/
structure Templates where
  equals : String → String → Bool → Except CubeError String
  not_equals : String → String → Bool → Except CubeError String
  in_where : String → List String → Bool → Except CubeError String
  not_in_where : String → List String → Bool → Except CubeError String
  set_where : String → Except CubeError String
  not_set_where : String → Except CubeError String
  time_range_filter : String → String → String → Except CubeError String
  add_interval : String → String → Except CubeError String
  sub_interval : String → String → Except CubeError String
  gt : String → String → Except CubeError String
  gte : String → String → Except CubeError String
  lt : String → String → Except CubeError String
  lte : String → String → Except CubeError String
  ilike : String → String → Bool → Bool → Bool → Except CubeError String
  or_is_null_check : String → Except CubeError String

namespace BaseFilter

/-- `BaseFilter::change_operator`: builds a fresh node with the new operator
and values, cloning every other field (shared references included). -/
def change_operator (f : BaseFilter) (filter_operator : FilterOperator)
    (values : List (Option String)) : BaseFilter :=
  { query_tools := f.query_tools
    member_evaluator := f.member_evaluator
    filter_type := f.filter_type
    filter_operator := filter_operator
    values := values
    templates := f.templates }

/-- The `PartialEq for BaseFilter` impl: equality compares `filter_type`,
`filter_operator` and `values`, ignoring the member reference. -/
def eqFilter (a b : BaseFilter) : Bool :=
  decide (a.filter_type = b.filter_type)
    && decide (a.filter_operator = b.filter_operator)
    && decide (a.values = b.values)

/-- `BaseFilter::is_values_contains_null`. -/
def is_values_contains_null (f : BaseFilter) : Bool :=
  f.values.any (fun v => v.isNone)

/-- `BaseFilter::is_array_value`. -/
def is_array_value (f : BaseFilter) : Bool :=
  f.values.length > 1

/-- `BaseFilter::is_need_null_chek` (sic): the three-valued-logic guard
decision. -/
def is_need_null_chek (f : BaseFilter) (is_not : Bool) : Bool :=
  let contains_null := f.is_values_contains_null
  if is_not then !contains_null else contains_null

/-- `BaseFilter::filter_and_allocate_values`: allocated tokens for the
non-null values, nulls dropped, order preserved. -/
def filter_and_allocate_values (tools : Tools) (f : BaseFilter) : List String :=
  f.values.filterMap (fun v => v.map (fun s => tools.allocate_param s))

/-- `BaseFilter::allocate_param`. -/
def allocate_param (tools : Tools) (param : String) : String :=
  tools.allocate_param param

/-- `BaseFilter::allocate_timestamp_param`: allocates and appends the
`::timestamptz` cast marker. -/
def allocate_timestamp_param (tools : Tools) (param : String) : String :=
  tools.allocate_param param ++ "::timestamptz"

/-- `BaseFilter::first_param`: the token for `values[0]` (`NULL` when that
element is `None`), or an argument-count error when `values` is empty. -/
def first_param (tools : Tools) (f : BaseFilter) : Except CubeError String :=
  match f.values with
  | [] => .error (.user "Expected one parameter but nothing found")
  | some value :: _ => .ok (allocate_param tools value)
  | none :: _ => .ok "NULL"

end BaseFilter

/-- Fixed-shape pattern matcher embedding the anchored regexes of
base_filter.rs: a pattern character `D` matches any decimal digit, every
other pattern character matches itself, and the whole string must be
consumed (the regexes are `^...$`-anchored). -/
def matchShape : List Char → List Char → Bool
  | [], [] => true
  | p :: ps, c :: cs =>
    (if p = 'D' then c.isDigit else p == c) && matchShape ps cs
  | _, _ => false

/-- `DATE_TIME_LOCAL_MS_RE`: `^\d{4}-\d{2}-\d{2}T\d{2}:\d{2}:\d{2}\.\d{3}$`. -/
def DATE_TIME_LOCAL_MS_RE (s : String) : Bool :=
  matchShape "DDDD-DD-DDTDD:DD:DD.DDD".toList s.toList

/-- `DATE_TIME_LOCAL_U_RE`: `^\d{4}-\d{2}-\d{2}T\d{2}:\d{2}:\d{2}\.\d{6}$`. -/
def DATE_TIME_LOCAL_U_RE (s : String) : Bool :=
  matchShape "DDDD-DD-DDTDD:DD:DD.DDDDDD".toList s.toList

/-- `DATE_RE`: `^\d{4}-\d{2}-\d{2}$`. -/
def DATE_RE (s : String) : Bool :=
  matchShape "DDDD-DD-DD".toList s.toList

namespace BaseFilter

/-- Suffix test standing for Rust `str::ends_with`; phrased over character
lists so that it evaluates by kernel reduction (the strings involved are
ASCII, where byte suffixes and character suffixes coincide). -/
def strEndsWith (s suffix : String) : Bool :=
  suffix.toList.isSuffixOf s.toList

/-- The shared tail of `format_from_date` (both precisions fall through to
the bare-date check): expand a bare `YYYY-MM-DD` date to start-of-day at the
given precision, otherwise fail with the unrecognized-format error. -/
def format_from_fallback (precision : Nat) (date : String) : Except CubeError String :=
  if DATE_RE date then
    .ok (date ++ "T00:00:00." ++ String.mk (List.replicate precision '0'))
  else
    .error (.user ("Unsupported date format: " ++ date))

/-- `BaseFilter::format_from_date`: normalizes a `from` bound at the
configured precision. String length in Rust is byte length; on every string
the shape regexes accept it coincides with the character count used here. -/
def format_from_date (tools : Tools) (date : String) : Except CubeError String :=
  match tools.timestamp_precision with
  | .error e => .error e
  | .ok precision =>
    if precision = 3 then
      if DATE_TIME_LOCAL_MS_RE date then
        .ok date
      else
        format_from_fallback precision date
    else if precision = 6 then
      if date.length = 23 && DATE_TIME_LOCAL_MS_RE date then
        .ok (date ++ "000")
      else if date.length = 26 && DATE_TIME_LOCAL_U_RE date then
        .ok date
      else
        format_from_fallback precision date
    else
      .error (.user ("Unsupported timestamp precision: " ++ toString precision))

/-- The shared tail of `format_to_date`: expand a bare `YYYY-MM-DD` date to
end-of-day at the given precision, otherwise fail with the
unrecognized-format error. -/
def format_to_fallback (precision : Nat) (date : String) : Except CubeError String :=
  if DATE_RE date then
    .ok (date ++ "T23:59:59." ++ String.mk (List.replicate precision '9'))
  else
    .error (.user ("Unsupported date format: " ++ date))

/-- `BaseFilter::format_to_date`: normalizes a `to` bound at the configured
precision, with the trailing-`.999` end-of-day rule at precision 6. -/
def format_to_date (tools : Tools) (date : String) : Except CubeError String :=
  match tools.timestamp_precision with
  | .error e => .error e
  | .ok precision =>
    if precision = 3 then
      if DATE_TIME_LOCAL_MS_RE date then
        .ok date
      else
        format_to_fallback precision date
    else if precision = 6 then
      if date.length = 23 && DATE_TIME_LOCAL_MS_RE date then
        if strEndsWith date ".999" then
          .ok (date ++ "999")
        else
          .ok (date ++ "000")
      else if date.length = 26 && DATE_TIME_LOCAL_U_RE date then
        .ok date
      else
        format_to_fallback precision date
    else
      .error (.user ("Unsupported timestamp precision: " ++ toString precision))

/-- `BaseFilter::allocate_date_params`: validates the two range bounds,
normalizes them, converts to the database timezone and allocates each as a
timestamp parameter. -/
def allocate_date_params (tools : Tools) (f : BaseFilter) :
    Except CubeError (String × String) :=
  match f.values with
  | from_v :: to_v :: _ =>
    match from_v with
    | none => .error (.user "Arguments for date range is not valid")
    | some from_str =>
      match format_from_date tools from_str with
      | .error e => .error e
      | .ok fromF =>
        match tools.in_db_time_zone fromF with
        | .error e => .error e
        | .ok fromD =>
          match to_v with
          | none => .error (.user "Arguments for date range is not valid")
          | some to_str =>
            match format_to_date tools to_str with
            | .error e => .error e
            | .ok toF =>
              match tools.in_db_time_zone toF with
              | .error e => .error e
              | .ok toD =>
                .ok (allocate_timestamp_param tools fromD,
                  allocate_timestamp_param tools toD)
  | _ =>
    .error (.user ("2 arguments expected for date range, got "
      ++ toString f.values.length))

/-- `BaseFilter::extend_date_range_bound`: applies the interval extension
unless the offset is absent or the sentinel `"unbounded"`. -/
def extend_date_range_bound (tmpl : Templates) (date : String)
    (interval : Option String) (is_sub : Bool) : Except CubeError String :=
  match interval with
  | some interval =>
    if interval ≠ "unbounded" then
      if is_sub then
        tmpl.sub_interval date interval
      else
        tmpl.add_interval date interval
    else
      .ok date
  | none => .ok date

/-- `BaseFilter::in_date_range`. -/
def in_date_range (tools : Tools) (tmpl : Templates) (f : BaseFilter)
    (member_sql : String) : Except CubeError String := do
  let (fromD, toD) ← allocate_date_params tools f
  tmpl.time_range_filter member_sql fromD toD

/-- `BaseFilter::in_date_range_extended`: the Rust code guards the accesses
`values[2]`/`values[3]` by `values.len() >= 3`/`>= 4`, which is exactly
`values[i]? = some _` here. -/
def in_date_range_extended (tools : Tools) (tmpl : Templates) (f : BaseFilter)
    (member_sql : String) : Except CubeError String := do
  let (fromD, toD) ← allocate_date_params tools f
  let fromD ←
    match f.values[2]? with
    | some interval => extend_date_range_bound tmpl fromD interval true
    | none => pure fromD
  let toD ←
    match f.values[3]? with
    | some interval => extend_date_range_bound tmpl toD interval false
    | none => pure toD
  tmpl.time_range_filter member_sql fromD toD

/-- `BaseFilter::equals_where`. -/
def equals_where (tools : Tools) (tmpl : Templates) (f : BaseFilter)
    (member_sql : String) : Except CubeError String :=
  let need_null_check := f.is_need_null_chek false
  if f.is_array_value then
    tmpl.in_where member_sql (filter_and_allocate_values tools f) need_null_check
  else if f.is_values_contains_null then
    tmpl.not_set_where member_sql
  else do
    tmpl.equals member_sql (← first_param tools f) need_null_check

/-- `BaseFilter::not_equals_where`. -/
def not_equals_where (tools : Tools) (tmpl : Templates) (f : BaseFilter)
    (member_sql : String) : Except CubeError String :=
  let need_null_check := f.is_need_null_chek true
  if f.is_array_value then
    tmpl.not_in_where member_sql (filter_and_allocate_values tools f) need_null_check
  else if f.is_values_contains_null then
    tmpl.set_where member_sql
  else do
    tmpl.not_equals member_sql (← first_param tools f) need_null_check

/-- `BaseFilter::in_where`. -/
def in_where (tools : Tools) (tmpl : Templates) (f : BaseFilter)
    (member_sql : String) : Except CubeError String :=
  tmpl.in_where member_sql (filter_and_allocate_values tools f)
    (f.is_need_null_chek false)

/-- `BaseFilter::not_in_where`. -/
def not_in_where (tools : Tools) (tmpl : Templates) (f : BaseFilter)
    (member_sql : String) : Except CubeError String :=
  tmpl.not_in_where member_sql (filter_and_allocate_values tools f)
    (f.is_need_null_chek true)

/-- `BaseFilter::set_where`. -/
def set_where (tmpl : Templates) (member_sql : String) : Except CubeError String :=
  tmpl.set_where member_sql

/-- `BaseFilter::not_set_where`. -/
def not_set_where (tmpl : Templates) (member_sql : String) : Except CubeError String :=
  tmpl.not_set_where member_sql

/-- `BaseFilter::gt_where`. -/
def gt_where (tools : Tools) (tmpl : Templates) (f : BaseFilter)
    (member_sql : String) : Except CubeError String := do
  tmpl.gt member_sql (← first_param tools f)

/-- `BaseFilter::gte_where`. -/
def gte_where (tools : Tools) (tmpl : Templates) (f : BaseFilter)
    (member_sql : String) : Except CubeError String := do
  tmpl.gte member_sql (← first_param tools f)

/-- `BaseFilter::lt_where`. -/
def lt_where (tools : Tools) (tmpl : Templates) (f : BaseFilter)
    (member_sql : String) : Except CubeError String := do
  tmpl.lt member_sql (← first_param tools f)

/-- `BaseFilter::lte_where`. -/
def lte_where (tools : Tools) (tmpl : Templates) (f : BaseFilter)
    (member_sql : String) : Except CubeError String := do
  tmpl.lte member_sql (← first_param tools f)

/-- `BaseFilter::like_or_where`: one ilike fragment per allocated non-null
value, joined by `" AND "`/`" OR "`, followed by the `or_is_null_check`
guard exactly when `is_need_null_chek` holds. -/
def like_or_where (tools : Tools) (tmpl : Templates) (f : BaseFilter)
    (member_sql : String) (nt start_wild end_wild : Bool) :
    Except CubeError String := do
  let values := filter_and_allocate_values tools f
  let like_parts ← values.mapM (fun v =>
    tmpl.ilike member_sql v start_wild end_wild nt)
  let logical_symbol := if nt then " AND " else " OR "
  let null_check ←
    if f.is_need_null_chek nt then
      tmpl.or_is_null_check member_sql
    else
      pure ""
  return "(" ++ String.intercalate logical_symbol like_parts ++ ")" ++ null_check

/-- `BaseFilter::contains_where`. -/
def contains_where (tools : Tools) (tmpl : Templates) (f : BaseFilter)
    (member_sql : String) : Except CubeError String :=
  like_or_where tools tmpl f member_sql false true true

/-- `BaseFilter::not_contains_where`. -/
def not_contains_where (tools : Tools) (tmpl : Templates) (f : BaseFilter)
    (member_sql : String) : Except CubeError String :=
  like_or_where tools tmpl f member_sql true true true

/-- `BaseFilter::starts_with_where`. -/
def starts_with_where (tools : Tools) (tmpl : Templates) (f : BaseFilter)
    (member_sql : String) : Except CubeError String :=
  like_or_where tools tmpl f member_sql false false true

/-- `BaseFilter::not_starts_with_where`. -/
def not_starts_with_where (tools : Tools) (tmpl : Templates) (f : BaseFilter)
    (member_sql : String) : Except CubeError String :=
  like_or_where tools tmpl f member_sql true false true

/-- `BaseFilter::ends_with_where`. -/
def ends_with_where (tools : Tools) (tmpl : Templates) (f : BaseFilter)
    (member_sql : String) : Except CubeError String :=
  like_or_where tools tmpl f member_sql false true false

/-- `BaseFilter::not_ends_with_where`. -/
def not_ends_with_where (tools : Tools) (tmpl : Templates) (f : BaseFilter)
    (member_sql : String) : Except CubeError String :=
  like_or_where tools tmpl f member_sql true true false

/-- `BaseFilter::to_sql`: resolves the member SQL (the result of
`evaluate_with_context` is passed in already as `member_res`) and dispatches
exhaustively on the operator. -/
def to_sql (tools : Tools) (tmpl : Templates) (member_res : Except CubeError String)
    (f : BaseFilter) : Except CubeError String := do
  let member_sql ← member_res
  match f.filter_operator with
  | .Equal => equals_where tools tmpl f member_sql
  | .NotEqual => not_equals_where tools tmpl f member_sql
  | .InDateRange => in_date_range tools tmpl f member_sql
  | .InDateRangeExtended => in_date_range_extended tools tmpl f member_sql
  | .In => in_where tools tmpl f member_sql
  | .NotIn => not_in_where tools tmpl f member_sql
  | .Set => set_where tmpl member_sql
  | .NotSet => not_set_where tmpl member_sql
  | .Gt => gt_where tools tmpl f member_sql
  | .Gte => gte_where tools tmpl f member_sql
  | .Lt => lt_where tools tmpl f member_sql
  | .Lte => lte_where tools tmpl f member_sql
  | .Contains => contains_where tools tmpl f member_sql
  | .NotContains => not_contains_where tools tmpl f member_sql
  | .StartsWith => starts_with_where tools tmpl f member_sql
  | .NotStartsWith => not_starts_with_where tools tmpl f member_sql
  | .EndsWith => ends_with_where tools tmpl f member_sql
  | .NotEndsWith => not_ends_with_where tools tmpl f member_sql

end BaseFilter

deriving instance DecidableEq for Except

/-- Modelled from the spec: the repository's `FilterTemplates::or_is_null_check`
renderer lives outside this file's source; per the spec the null guard it
renders is `OR <expr> IS NULL`. -/
def or_is_null_check_modelled (expr : String) : Except CubeError String :=
  .ok (" OR " ++ expr ++ " IS NULL")

/-- A concrete tools instance (identity-style allocator, identity timezone,
precision 3) used to instantiate hypotheses at concrete inputs. -/
def sampleTools : Tools :=
  { allocate_param := fun s => "$" ++ s
    in_db_time_zone := fun s => .ok s
    timestamp_precision := .ok 3 }

/-- Like `sampleTools` but with fractional-second precision 6. -/
def sampleTools6 : Tools :=
  { allocate_param := fun s => "$" ++ s
    in_db_time_zone := fun s => .ok s
    timestamp_precision := .ok 6 }

/-- A concrete template set; `or_is_null_check` is the spec-modelled guard. -/
def sampleTemplates : Templates :=
  { equals := fun m p _ => .ok (m ++ " = " ++ p)
    not_equals := fun m p _ => .ok (m ++ " <> " ++ p)
    in_where := fun m ps _ => .ok (m ++ " IN (" ++ String.intercalate ", " ps ++ ")")
    not_in_where := fun m ps _ => .ok (m ++ " NOT IN (" ++ String.intercalate ", " ps ++ ")")
    set_where := fun m => .ok (m ++ " IS NOT NULL")
    not_set_where := fun m => .ok (m ++ " IS NULL")
    time_range_filter := fun m a b => .ok (m ++ " BETWEEN " ++ a ++ " AND " ++ b)
    add_interval := fun d i => .ok (d ++ " + interval " ++ i)
    sub_interval := fun d i => .ok (d ++ " - interval " ++ i)
    gt := fun m p => .ok (m ++ " > " ++ p)
    gte := fun m p => .ok (m ++ " >= " ++ p)
    lt := fun m p => .ok (m ++ " < " ++ p)
    lte := fun m p => .ok (m ++ " <= " ++ p)
    ilike := fun m v sw ew nt =>
      .ok (m ++ (if nt then " NOT ILIKE " else " ILIKE ")
        ++ (if sw then "%" else "") ++ v ++ (if ew then "%" else ""))
    or_is_null_check := or_is_null_check_modelled }

/-- A concrete node constructor for instantiating theorems: the reference
ids are arbitrary since the claims under test never depend on them. -/
def mkFilter (op : FilterOperator) (vals : List (Option String)) : BaseFilter :=
  { query_tools := 0
    member_evaluator := 0
    filter_type := .Dimension
    filter_operator := op
    values := vals
    templates := 0 }

/-- The `(not, start_wild, end_wild)` argument triple that `to_sql` passes to
`like_or_where` for each pattern-match operator; `none` for every other
operator. -/
def patternFlags : FilterOperator → Option (Bool × Bool × Bool)
  | .Contains => some (false, true, true)
  | .NotContains => some (true, true, true)
  | .StartsWith => some (false, false, true)
  | .NotStartsWith => some (true, false, true)
  | .EndsWith => some (false, true, false)
  | .NotEndsWith => some (true, true, false)
  | _ => none

/-- Selector phrased from the claim wording, for comparison with the source:
the interval offset applied to the bound drawn from `values[idx]`, present
exactly when that position exists, holds `some` offset, and the offset is
not the sentinel `"unbounded"`. -/
def extensionOffset (vs : List (Option String)) (idx : Nat) : Option String :=
  match vs[idx]? with
  | some (some i) => if i = "unbounded" then none else some i
  | _ => none

theorem matchShape_length (ps : List Char) :
    ∀ cs : List Char, matchShape ps cs = true → cs.length = ps.length := by
  induction ps with
  | nil =>
    intro cs h
    cases cs with
    | nil => rfl
    | cons c cs => simp [matchShape] at h
  | cons p ps ih =>
    intro cs h
    cases cs with
    | nil => simp [matchShape] at h
    | cons c cs =>
      simp only [matchShape, Bool.and_eq_true] at h
      simp [ih cs h.2]

theorem string_length_eq_toList_length (s : String) : s.length = s.toList.length := rfl

/-- Claim C1: `is_need_null_chek(is_negated)` returns, for `is_negated = false`,
true iff some element of `values` is `none`, and, for `is_negated = true`,
true iff no element of `values` is `none`. -/
theorem is_need_null_chek_rule (f : BaseFilter) :
    (f.is_need_null_chek false = true ↔ ∃ v ∈ f.values, v = none) ∧
    (f.is_need_null_chek true = true ↔ ∀ v ∈ f.values, v ≠ none) := by
  constructor <;>
    simp [BaseFilter.is_need_null_chek, BaseFilter.is_values_contains_null,
      List.any_eq_true, Option.isNone_iff_eq_none]

/-- Claim C7: `change_operator(op, vals)` yields a node whose operator is
`op`, whose values are `vals`, and which shares the original node's member
reference (and the other shared references and the kind); the original node
is a value that the call does not mutate, which the pure embedding renders
by construction. -/
theorem change_operator_roundtrip (f : BaseFilter) (op : FilterOperator)
    (vals : List (Option String)) :
    (f.change_operator op vals).filter_operator = op ∧
    (f.change_operator op vals).values = vals ∧
    (f.change_operator op vals).member_evaluator = f.member_evaluator ∧
    (f.change_operator op vals).query_tools = f.query_tools ∧
    (f.change_operator op vals).templates = f.templates ∧
    (f.change_operator op vals).filter_type = f.filter_type :=
  ⟨rfl, rfl, rfl, rfl, rfl, rfl⟩

/-- Claim C8: structural equality of filter nodes holds iff the
(kind, operator, values) triple agrees, and replacing the member reference
on either side never changes its outcome. -/
theorem eqFilter_compares_triple (a b : BaseFilter) :
    (BaseFilter.eqFilter a b = true ↔
      a.filter_type = b.filter_type ∧ a.filter_operator = b.filter_operator ∧
        a.values = b.values) ∧
    (∀ m m2 : Nat,
      BaseFilter.eqFilter { a with member_evaluator := m }
        { b with member_evaluator := m2 } = BaseFilter.eqFilter a b) := by
  constructor
  · simp [BaseFilter.eqFilter, and_assoc]
  · intro m m2
    rfl

/-- Claim C2: for a node whose values are exactly `[none]`, the Equal
operator renders the NOT-SET (`IS NULL`) presence test on the member and the
NotEqual operator the SET (`IS NOT NULL`) test; neither path renders the
literal equality comparison template. -/
theorem equal_null_renders_presence_test (tools : Tools) (tmpl : Templates)
    (m : String) (f : BaseFilter) (hv : f.values = [none]) :
    (f.filter_operator = .Equal →
      BaseFilter.to_sql tools tmpl (.ok m) f = tmpl.not_set_where m) ∧
    (f.filter_operator = .NotEqual →
      BaseFilter.to_sql tools tmpl (.ok m) f = tmpl.set_where m) := by
  constructor <;> intro hop <;>
    simp [BaseFilter.to_sql, hop, BaseFilter.equals_where, BaseFilter.not_equals_where,
      BaseFilter.is_array_value, BaseFilter.is_values_contains_null, hv,
      Bind.bind, Except.bind]

/-- Witness for C2 at a concrete Equal node with values `[none]`. -/
theorem equal_null_renders_presence_test_witness :
    BaseFilter.to_sql sampleTools sampleTemplates (.ok "m")
        (mkFilter .Equal [none]) = sampleTemplates.not_set_where "m" :=
  (equal_null_renders_presence_test sampleTools sampleTemplates "m"
    (mkFilter .Equal [none]) rfl).1 rfl

/-- Claim C9: with an empty values list, every scalar-argument operator
(Gt, Gte, Lt, Lte, and the Equal/NotEqual scalar paths) fails with the
argument-count error; on a non-empty list `first_param` yields the allocated
token for a `some` head and the literal SQL NULL token for a `none` head. -/
theorem first_param_scalar_rule (tools : Tools) (tmpl : Templates) (m : String)
    (f : BaseFilter)
    (hop : f.filter_operator = .Gt ∨ f.filter_operator = .Gte ∨
      f.filter_operator = .Lt ∨ f.filter_operator = .Lte ∨
      f.filter_operator = .Equal ∨ f.filter_operator = .NotEqual) :
    (f.values = [] →
      BaseFilter.to_sql tools tmpl (.ok m) f =
        .error (.user "Expected one parameter but nothing found")) ∧
    (∀ v rest, f.values = some v :: rest →
      BaseFilter.first_param tools f = .ok (tools.allocate_param v)) ∧
    (∀ rest, f.values = none :: rest →
      BaseFilter.first_param tools f = .ok "NULL") := by
  refine ⟨?_, ?_, ?_⟩
  · intro hv
    rcases hop with h|h|h|h|h|h <;>
      simp [BaseFilter.to_sql, h, BaseFilter.gt_where, BaseFilter.gte_where,
        BaseFilter.lt_where, BaseFilter.lte_where, BaseFilter.equals_where,
        BaseFilter.not_equals_where, BaseFilter.first_param, hv,
        BaseFilter.is_array_value, BaseFilter.is_values_contains_null,
        Bind.bind, Except.bind]
  · intro v rest hv
    simp [BaseFilter.first_param, hv, BaseFilter.allocate_param]
  · intro rest hv
    simp [BaseFilter.first_param, hv]

/-- Witness for C9: a concrete Gt node with no values fails with the
argument-count error, and `first_param` on a one-element list returns the
allocated token. -/
theorem first_param_scalar_rule_witness :
    BaseFilter.to_sql sampleTools sampleTemplates (.ok "m") (mkFilter .Gt []) =
      .error (.user "Expected one parameter but nothing found") ∧
    BaseFilter.first_param sampleTools (mkFilter .Gt [some "5"]) = .ok "$5" :=
  ⟨(first_param_scalar_rule sampleTools sampleTemplates "m" (mkFilter .Gt [])
      (Or.inl rfl)).1 rfl,
    (first_param_scalar_rule sampleTools sampleTemplates "m"
      (mkFilter .Gt [some "5"]) (Or.inl rfl)).2.1 "5" [] rfl⟩

theorem DATE_TIME_LOCAL_MS_RE_length {d : String}
    (h : DATE_TIME_LOCAL_MS_RE d = true) : d.length = 23 := by
  have hl := matchShape_length _ _ h
  have hp : ("DDDD-DD-DDTDD:DD:DD.DDD".toList).length = 23 := by decide
  rw [string_length_eq_toList_length, hl, hp]

theorem DATE_TIME_LOCAL_U_RE_length {d : String}
    (h : DATE_TIME_LOCAL_U_RE d = true) : d.length = 26 := by
  have hl := matchShape_length _ _ h
  have hp : ("DDDD-DD-DDTDD:DD:DD.DDDDDD".toList).length = 26 := by decide
  rw [string_length_eq_toList_length, hl, hp]

theorem DATE_RE_length {d : String} (h : DATE_RE d = true) : d.length = 10 := by
  have hl := matchShape_length _ _ h
  have hp : ("DDDD-DD-DD".toList).length = 10 := by decide
  rw [string_length_eq_toList_length, hl, hp]

theorem DATE_RE_not_timestamp {d : String} (h : DATE_RE d = true) :
    DATE_TIME_LOCAL_MS_RE d = false ∧ DATE_TIME_LOCAL_U_RE d = false := by
  have h10 := DATE_RE_length h
  constructor
  · cases hms : DATE_TIME_LOCAL_MS_RE d with
    | false => rfl
    | true =>
      have := DATE_TIME_LOCAL_MS_RE_length hms
      omega
  · cases hu : DATE_TIME_LOCAL_U_RE d with
    | false => rfl
    | true =>
      have := DATE_TIME_LOCAL_U_RE_length hu
      omega

/-- Claim C5: at each supported precision p ∈ {3, 6}, a bare `YYYY-MM-DD`
bound expands to start-of-day `<date>T00:00:00.` followed by p zeros as a
from-bound and to end-of-day `<date>T23:59:59.` followed by p nines as a
to-bound. -/
theorem bare_date_expansion (tools : Tools) (d : String) (p : Nat)
    (hp : tools.timestamp_precision = .ok p) (hP : p = 3 ∨ p = 6)
    (hd : DATE_RE d = true) :
    BaseFilter.format_from_date tools d =
      .ok (d ++ "T00:00:00." ++ String.mk (List.replicate p '0')) ∧
    BaseFilter.format_to_date tools d =
      .ok (d ++ "T23:59:59." ++ String.mk (List.replicate p '9')) := by
  obtain ⟨hms, hu⟩ := DATE_RE_not_timestamp hd
  have h10 := DATE_RE_length hd
  rcases hP with h | h <;> subst h <;>
    constructor <;>
      simp [BaseFilter.format_from_date, BaseFilter.format_to_date,
        BaseFilter.format_from_fallback, BaseFilter.format_to_fallback,
        hp, hms, hu, hd, h10]

/-- Witness for C5 at precision 3 on the date 2023-01-05. -/
theorem bare_date_expansion_witness :
    BaseFilter.format_from_date sampleTools "2023-01-05" =
      .ok ("2023-01-05" ++ "T00:00:00." ++ String.mk (List.replicate 3 '0')) ∧
    BaseFilter.format_to_date sampleTools "2023-01-05" =
      .ok ("2023-01-05" ++ "T23:59:59." ++ String.mk (List.replicate 3 '9')) :=
  bare_date_expansion sampleTools "2023-01-05" 3 rfl (Or.inl rfl) (by decide)

/-- Claim C6: at precision 6, a 3-fractional-digit timestamp is normalized
as a to-bound by appending `999` exactly when it already ends in `.999` and
by appending `000` otherwise, is always zero-padded with `000` as a
from-bound, and a 6-fractional-digit timestamp passes through unchanged for
both bound kinds. -/
theorem precision6_fraction_rule (tools : Tools) (d d6 : String)
    (hp : tools.timestamp_precision = .ok 6)
    (hd : DATE_TIME_LOCAL_MS_RE d = true)
    (hd6 : DATE_TIME_LOCAL_U_RE d6 = true) :
    BaseFilter.format_to_date tools d =
      .ok (d ++ (if BaseFilter.strEndsWith d ".999" then "999" else "000")) ∧
    BaseFilter.format_from_date tools d = .ok (d ++ "000") ∧
    BaseFilter.format_to_date tools d6 = .ok d6 ∧
    BaseFilter.format_from_date tools d6 = .ok d6 := by
  have h23 := DATE_TIME_LOCAL_MS_RE_length hd
  have h26 := DATE_TIME_LOCAL_U_RE_length hd6
  refine ⟨?_, ?_, ?_, ?_⟩ <;>
    simp [BaseFilter.format_to_date, BaseFilter.format_from_date,
      hp, hd, hd6, h23, h26]
  · cases hsw : BaseFilter.strEndsWith d ".999" <;> simp [hsw]

/-- Witness for C6 at the spec's example inputs with precision 6. -/
theorem precision6_fraction_rule_witness :
    BaseFilter.format_to_date sampleTools6 "2023-01-05T10:00:00.999" =
      .ok "2023-01-05T10:00:00.999999" ∧
    BaseFilter.format_from_date sampleTools6 "2023-01-05T10:00:00.999" =
      .ok "2023-01-05T10:00:00.999000" ∧
    BaseFilter.format_to_date sampleTools6 "2023-01-05T10:00:00.123456" =
      .ok "2023-01-05T10:00:00.123456" := by
  have h := precision6_fraction_rule sampleTools6 "2023-01-05T10:00:00.999"
    "2023-01-05T10:00:00.123456" rfl (by decide) (by decide)
  exact ⟨by simpa using h.1, by simpa using h.2.1, h.2.2.1⟩

theorem allocate_date_params_short (tools : Tools) (f : BaseFilter)
    (h : f.values.length < 2) :
    BaseFilter.allocate_date_params tools f =
      .error (.user ("2 arguments expected for date range, got "
        ++ toString f.values.length)) := by
  rcases hv : f.values with _ | ⟨v0, _ | ⟨v1, rest⟩⟩
  · simp [BaseFilter.allocate_date_params, hv]
  · simp [BaseFilter.allocate_date_params, hv]
  · rw [hv] at h
    simp at h
    omega

theorem allocate_date_params_none_bound (tools : Tools) (f : BaseFilter)
    (h : f.values[0]? = some none ∨ f.values[1]? = some none) :
    ∃ msg, BaseFilter.allocate_date_params tools f = .error (.user msg) := by
  rcases hv : f.values with _ | ⟨v0, _ | ⟨v1, rest⟩⟩
  · rw [hv] at h
    simp at h
  · exact ⟨_, allocate_date_params_short tools f (by rw [hv]; simp)⟩
  · rw [hv] at h
    simp at h
    rcases h with h0 | h1
    · subst h0
      exact ⟨"Arguments for date range is not valid",
        by simp [BaseFilter.allocate_date_params, hv]⟩
    · subst h1
      cases v0 with
      | none =>
        exact ⟨"Arguments for date range is not valid",
          by simp [BaseFilter.allocate_date_params, hv]⟩
      | some s =>
        cases hfe : BaseFilter.format_from_date tools s with
        | error e =>
          cases e with
          | user msg => exact ⟨msg, by simp [BaseFilter.allocate_date_params, hv, hfe]⟩
        | ok fromF =>
          cases htz : tools.in_db_time_zone fromF with
          | error e =>
            cases e with
            | user msg =>
              exact ⟨msg, by simp [BaseFilter.allocate_date_params, hv, hfe, htz]⟩
          | ok fromD =>
            exact ⟨"Arguments for date range is not valid",
              by simp [BaseFilter.allocate_date_params, hv, hfe, htz]⟩

theorem in_date_range_error (tools : Tools) (tmpl : Templates) (f : BaseFilter)
    (m : String) (e : CubeError)
    (h : BaseFilter.allocate_date_params tools f = .error e) :
    BaseFilter.in_date_range tools tmpl f m = .error e := by
  simp [BaseFilter.in_date_range, h, Bind.bind, Except.bind]

theorem in_date_range_extended_error (tools : Tools) (tmpl : Templates)
    (f : BaseFilter) (m : String) (e : CubeError)
    (h : BaseFilter.allocate_date_params tools f = .error e) :
    BaseFilter.in_date_range_extended tools tmpl f m = .error e := by
  simp [BaseFilter.in_date_range_extended, h, Bind.bind, Except.bind]

/-- Claim C4: for InDateRange and InDateRangeExtended, fewer than 2 values
fail with the argument-count error naming the actual count, and a `none` in
bound position 0 or 1 makes compilation fail with a (user validation) error;
no SQL fragment is produced in either case. -/
theorem date_range_argument_errors (tools : Tools) (tmpl : Templates)
    (m : String) (f : BaseFilter)
    (hop : f.filter_operator = .InDateRange ∨
      f.filter_operator = .InDateRangeExtended) :
    (f.values.length < 2 →
      BaseFilter.to_sql tools tmpl (.ok m) f =
        .error (.user ("2 arguments expected for date range, got "
          ++ toString f.values.length))) ∧
    ((f.values[0]? = some none ∨ f.values[1]? = some none) →
      ∃ msg, BaseFilter.to_sql tools tmpl (.ok m) f = .error (.user msg)) := by
  constructor
  · intro hlen
    have hal := allocate_date_params_short tools f hlen
    rcases hop with h | h <;>
      simp [BaseFilter.to_sql, h, in_date_range_error tools tmpl f m _ hal,
        in_date_range_extended_error tools tmpl f m _ hal, Bind.bind, Except.bind]
  · intro hnone
    obtain ⟨msg, hal⟩ := allocate_date_params_none_bound tools f hnone
    rcases hop with h | h
    · exact ⟨msg, by
        simp [BaseFilter.to_sql, h, in_date_range_error tools tmpl f m _ hal,
          Bind.bind, Except.bind]⟩
    · exact ⟨msg, by
        simp [BaseFilter.to_sql, h, in_date_range_extended_error tools tmpl f m _ hal,
          Bind.bind, Except.bind]⟩

/-- Witness for C4: an InDateRange node with no values fails naming count 0,
and one with a missing `to` bound fails with a validation error. -/
theorem date_range_argument_errors_witness :
    BaseFilter.to_sql sampleTools sampleTemplates (.ok "m")
      (mkFilter .InDateRange []) =
        .error (.user ("2 arguments expected for date range, got "
          ++ toString (mkFilter .InDateRange []).values.length)) ∧
    ∃ msg, BaseFilter.to_sql sampleTools sampleTemplates (.ok "m")
      (mkFilter .InDateRange [some "2023-01-05", none]) = .error (.user msg) :=
  ⟨(date_range_argument_errors sampleTools sampleTemplates "m"
      (mkFilter .InDateRange []) (Or.inl rfl)).1 (by decide),
    (date_range_argument_errors sampleTools sampleTemplates "m"
      (mkFilter .InDateRange [some "2023-01-05", none]) (Or.inl rfl)).2
      (Or.inr (by decide))⟩

/-- Claim C10: once the date parameters allocate successfully, an
InDateRangeExtended node interval-subtracts the lower bound exactly when
`values[2]` exists, is `some`, and is not `"unbounded"`, and interval-adds
the upper bound exactly when `values[3]` satisfies the same condition
(`extensionOffset` is that selector); in particular with values
`[from, to, "unbounded", "2 day"]` only the upper bound is extended and the
lower bound is passed to the range renderer exactly as allocated. -/
theorem in_date_range_extended_rule (tools : Tools) (tmpl : Templates)
    (m : String) (f : BaseFilter) (fromP toP : String)
    (hop : f.filter_operator = .InDateRangeExtended)
    (hal : BaseFilter.allocate_date_params tools f = .ok (fromP, toP)) :
    (BaseFilter.to_sql tools tmpl (.ok m) f =
      (do
        let f1 ←
          match extensionOffset f.values 2 with
          | some i => tmpl.sub_interval fromP i
          | none => pure fromP
        let t1 ←
          match extensionOffset f.values 3 with
          | some i => tmpl.add_interval toP i
          | none => pure toP
        tmpl.time_range_filter m f1 t1)) ∧
    (∀ fr t, f.values = [fr, t, some "unbounded", some "2 day"] →
      BaseFilter.to_sql tools tmpl (.ok m) f =
        (do
          let t1 ← tmpl.add_interval toP "2 day"
          tmpl.time_range_filter m fromP t1)) := by
  have main : BaseFilter.to_sql tools tmpl (.ok m) f =
      (do
        let f1 ←
          match extensionOffset f.values 2 with
          | some i => tmpl.sub_interval fromP i
          | none => pure fromP
        let t1 ←
          match extensionOffset f.values 3 with
          | some i => tmpl.add_interval toP i
          | none => pure toP
        tmpl.time_range_filter m f1 t1) := by
    have key : BaseFilter.to_sql tools tmpl (.ok m) f =
        BaseFilter.in_date_range_extended tools tmpl f m := by
      simp [BaseFilter.to_sql, hop, Bind.bind, Except.bind]
    rw [key]
    simp only [BaseFilter.in_date_range_extended, hal, Bind.bind, Except.bind]
    cases h2 : f.values[2]? with
    | none =>
      cases h3 : f.values[3]? with
      | none =>
        simp [extensionOffset, h2, h3, pure, Except.pure]
      | some i3 =>
        cases i3 with
        | none =>
          simp [extensionOffset, h2, h3, BaseFilter.extend_date_range_bound,
            pure, Except.pure]
        | some j =>
          by_cases hj : j = "unbounded" <;>
            simp [extensionOffset, h2, h3, BaseFilter.extend_date_range_bound,
              hj, pure, Except.pure]
    | some i2 =>
      cases i2 with
      | none =>
        cases h3 : f.values[3]? with
        | none =>
          simp [extensionOffset, h2, h3, BaseFilter.extend_date_range_bound,
            pure, Except.pure]
        | some i3 =>
          cases i3 with
          | none =>
            simp [extensionOffset, h2, h3, BaseFilter.extend_date_range_bound,
              pure, Except.pure]
          | some j =>
            by_cases hj : j = "unbounded" <;>
              simp [extensionOffset, h2, h3, BaseFilter.extend_date_range_bound,
                hj, pure, Except.pure]
      | some i =>
        by_cases hi : i = "unbounded" <;>
          cases h3 : f.values[3]? with
          | none =>
            simp [extensionOffset, h2, h3, BaseFilter.extend_date_range_bound,
              hi, pure, Except.pure]
          | some i3 =>
            cases i3 with
            | none =>
              simp [extensionOffset, h2, h3, BaseFilter.extend_date_range_bound,
                hi, pure, Except.pure]
            | some j =>
              by_cases hj : j = "unbounded" <;>
                simp [extensionOffset, h2, h3, BaseFilter.extend_date_range_bound,
                  hi, hj, pure, Except.pure]
  refine ⟨main, ?_⟩
  intro fr t hveq
  rw [main]
  simp [extensionOffset, hveq, Bind.bind, Except.bind, pure, Except.pure]

/-- Witness for C10 at a concrete node whose offsets are `"unbounded"` and
`"2 day"`: only the upper bound goes through the add-interval renderer. -/
theorem in_date_range_extended_rule_witness :
    BaseFilter.to_sql sampleTools sampleTemplates (.ok "m")
      (mkFilter .InDateRangeExtended
        [some "2023-01-05", some "2023-01-06", some "unbounded", some "2 day"]) =
      (do
        let t1 ← sampleTemplates.add_interval
          "$2023-01-06T23:59:59.999::timestamptz" "2 day"
        sampleTemplates.time_range_filter "m"
          "$2023-01-05T00:00:00.000::timestamptz" t1) :=
  (in_date_range_extended_rule sampleTools sampleTemplates "m"
    (mkFilter .InDateRangeExtended
      [some "2023-01-05", some "2023-01-06", some "unbounded", some "2 day"])
    "$2023-01-05T00:00:00.000::timestamptz"
    "$2023-01-06T23:59:59.999::timestamptz" rfl (by decide)).2
    (some "2023-01-05") (some "2023-01-06") rfl

theorem mapM_loop_ok {α β : Type} (tf : α → Except CubeError β)
    (g : α → β) (h : ∀ v, tf v = .ok (g v)) :
    ∀ (xs : List α) (acc : List β),
      List.mapM.loop tf xs acc = .ok (acc.reverse ++ xs.map g) := by
  intro xs
  induction xs with
  | nil =>
    intro acc
    simp [List.mapM.loop, pure, Except.pure]
  | cons x xs ih =>
    intro acc
    simp [List.mapM.loop, h x, Bind.bind, Except.bind, ih (g x :: acc)]

/-- Counterexample to C3 as stated: at a concrete negated pattern node whose
values contain no NULL, the appended guard is the single `or_is_null_check`
fragment `OR <expr> IS NULL` (the call site passes the same one-argument
renderer for both polarities), so the output does not end in the claimed
`AND <expr> IS NOT NULL` guard. -/
theorem like_guard_counterexample :
    BaseFilter.to_sql sampleTools sampleTemplates (.ok "m")
      (mkFilter .NotContains [some "a"]) =
        .ok "(m NOT ILIKE %$a%) OR m IS NULL" ∧
    BaseFilter.strEndsWith "(m NOT ILIKE %$a%) OR m IS NULL"
      " AND m IS NOT NULL" = false := by
  constructor
  · decide
  · decide

/-- Claim C3 (amended): every pattern-match operator builds one
case-insensitive fragment per allocated non-null value, joins the fragments
with OR for the positive forms and AND for the negated forms, and appends
the `or_is_null_check` guard — the same `OR <expr> IS NULL` fragment for
both polarities — exactly when `is_need_null_chek` holds. -/
theorem like_or_where_rule (tools : Tools) (tmpl : Templates) (m : String)
    (f : BaseFilter) (nt sw ew : Bool) (g : String) (frag : String → String)
    (hflags : patternFlags f.filter_operator = some (nt, sw, ew))
    (hilike : ∀ v, tmpl.ilike m v sw ew nt = .ok (frag v))
    (hguard : tmpl.or_is_null_check m = .ok g) :
    BaseFilter.filter_and_allocate_values tools f =
      (f.values.filterMap id).map tools.allocate_param ∧
    BaseFilter.to_sql tools tmpl (.ok m) f =
      .ok ("(" ++ String.intercalate (if nt then " AND " else " OR ")
          ((BaseFilter.filter_and_allocate_values tools f).map frag) ++ ")" ++
        (if f.is_need_null_chek nt then g else "")) := by
  constructor
  · rw [BaseFilter.filter_and_allocate_values, List.map_filterMap]
    simp
  · have hmap := mapM_loop_ok (fun v => tmpl.ilike m v sw ew nt) frag hilike
    cases hn : f.is_need_null_chek nt <;>
      cases hfo : f.filter_operator <;>
        simp [patternFlags, hfo] at hflags <;>
        obtain ⟨rfl, rfl, rfl⟩ := hflags <;>
        simp [BaseFilter.to_sql, hfo, BaseFilter.contains_where,
          BaseFilter.not_contains_where, BaseFilter.starts_with_where,
          BaseFilter.not_starts_with_where, BaseFilter.ends_with_where,
          BaseFilter.not_ends_with_where, BaseFilter.like_or_where, hmap,
          hn, hguard, Bind.bind, Except.bind, pure, Except.pure]

/-- Witness for the amended C3 at a two-value Contains node. -/
theorem like_or_where_rule_witness :
    BaseFilter.filter_and_allocate_values sampleTools
      (mkFilter .Contains [some "a", some "b"]) =
      ((mkFilter .Contains [some "a", some "b"]).values.filterMap id).map
        sampleTools.allocate_param ∧
    BaseFilter.to_sql sampleTools sampleTemplates (.ok "m")
      (mkFilter .Contains [some "a", some "b"]) =
      .ok ("(" ++ String.intercalate (if false then " AND " else " OR ")
          ((BaseFilter.filter_and_allocate_values sampleTools
            (mkFilter .Contains [some "a", some "b"])).map
            (fun v => "m" ++ " ILIKE " ++ "%" ++ v ++ "%")) ++ ")" ++
        (if (mkFilter .Contains [some "a", some "b"]).is_need_null_chek false
          then " OR m IS NULL" else "")) :=
  like_or_where_rule sampleTools sampleTemplates "m"
    (mkFilter .Contains [some "a", some "b"]) false true true " OR m IS NULL"
    (fun v => "m" ++ " ILIKE " ++ "%" ++ v ++ "%")
    rfl (fun _ => rfl) rfl
